import Mathlib

/-!
Verification of the mindshot bot against its specification.

The bot (src/mindshot_bot.py) is sequential orchestration of three external
providers (messaging, speech/LLM, document storage) behind Telegram command
handlers, plus a persisted user-to-document registry.  We embed the handlers
shallowly: the provider responses are an explicit environment of
`Except`-valued call results, handler execution is a pure function from the
world state (registry plus provider-held document bodies) to a new world, an
ordered trace of observable effects, and an optional uncaught exception.
-/

set_option linter.unusedVariables false

namespace Mindshot

/-- A permission entry as returned by the drive provider permission list
(fields id, emailAddress, role). -/
structure Permission where
  permId : String
  emailAddress : String
  role : String
deriving DecidableEq

/-- One insertText request inside a documents batchUpdate body
(location index and inserted text). -/
structure InsertTextRequest where
  index : Nat
  text : String
deriving DecidableEq

/-- Observable side effects performed by a handler, in execution order. -/
inductive Effect where
  | reply (msg : String)
  | createDocCall (title : String)
  | saveUserDocs (mapping : List (String × String))
  | permCreateCall (docId : String) (email : String) (role : String) (notify : Bool)
  | permListCall (docId : String)
  | permDeleteCall (docId : String) (permId : String)
  | batchUpdateCall (docId : String) (reqs : List InsertTextRequest)
  | downloadCall
  | writeFile (path : String)
  | removeFile (path : String)
  | transcribeCall (path : String)
  | summarizeCall (prompt : String)
deriving DecidableEq

/-- Provider environment: the outcome of each external call the handlers may
make.  A `.error e` models the Python call raising exception `e`. -/
structure Env where
  now : String
  createDoc : String → Except String String
  permCreate : String → String → Except String Unit
  permList : String → Except String (List Permission)
  batchUpdate : String → String → Except String Unit
  download : Except String Unit
  transcribe : String → Except String String
  summarize : String → Except String String

/-- World state: the `user_docs` registry (user id string to document id) and
the provider-held document bodies (document id to body text). -/
structure World where
  docs : List (String × String)
  contents : List (String × String)
deriving DecidableEq

/-- Result of running one handler: final world, ordered effect trace, and the
exception escaping the handler uncaught, if any. -/
structure HOut where
  world : World
  effects : List Effect
  exc : Option String
deriving DecidableEq

/-- The fixed allow-list of authorized user ids (WHITELIST in the source). -/
def WHITELIST : List Nat := [8079951399, 123456789, 987654321]

/-- The rejection reply sent by the whitelist decorator. -/
def rejectionMsg : String := "❌ You are not authorized to use this bot."

/-- get_doc_link from the source. -/
def get_doc_link (docId : String) : String :=
  "https://docs.google.com/document/d/" ++ docId ++ "/edit?usp=sharing"

/-- Title used when creating a fresh document; the Python template is
`Voice Notes for {username or user_id}` where an empty or absent username
falls back to the numeric user id. -/
def docTitle (userId : Nat) (username : Option String) : String :=
  "Voice Notes for " ++
    (match username with
     | some u => if u = "" then toString userId else u
     | none => toString userId)

/-- get_or_create_user_doc from the source: return the stored mapping when
present; otherwise call the provider create endpoint, record and persist the
new mapping.  The effect list records the provider calls made; the `Except`
models the create call raising. -/
def get_or_create_user_doc (userId : Nat) (username : Option String) (w : World) (env : Env) :
    Except String String × World × List Effect :=
  match w.docs.lookup (toString userId) with
  | some docId => (Except.ok docId, w, [])
  | none =>
    match env.createDoc (docTitle userId username) with
    | Except.error e =>
      (Except.error e, w, [Effect.createDocCall (docTitle userId username)])
    | Except.ok docId =>
      (Except.ok docId,
       ⟨(toString userId, docId) :: w.docs,
        if (w.contents.lookup docId).isSome then w.contents else (docId, "") :: w.contents⟩,
       [Effect.createDocCall (docTitle userId username),
        Effect.saveUserDocs ((toString userId, docId) :: w.docs)])

/-- Effect of a successful insertText at body index 1 on the provider-held
document bodies: the inserted text is prepended to the document body. -/
def applyInsertText (contents : List (String × String)) (docId text : String) :
    List (String × String) :=
  contents.map (fun p => if p.1 = docId then (p.1, text ++ p.2) else p)

/-- append_text_to_doc from the source: one batchUpdate call whose single
request inserts `text` plus a blank line at the fixed body index 1. -/
def append_text_to_doc (docId text : String) (w : World) (env : Env) :
    Except String Unit × World × List Effect :=
  match env.batchUpdate docId (text ++ "\n\n") with
  | Except.error e =>
    (Except.error e, w, [Effect.batchUpdateCall docId [⟨1, text ++ "\n\n"⟩]])
  | Except.ok _ =>
    (Except.ok (), ⟨w.docs, applyInsertText w.contents docId (text ++ "\n\n")⟩,
     [Effect.batchUpdateCall docId [⟨1, text ++ "\n\n"⟩]])

/-- The fixed summarization instruction of summarize_with_gpt, applied to a
transcript. -/
def summarizePrompt (transcription : String) : String :=
  "Summarize the following text as clear, concise bullet-point notes. " ++
  "Add only the most important information.\n\nText:\n" ++ transcription

/-- Whitespace characters removed by the Python str.strip() default
(space, tab, newline, carriage return, vertical tab, form feed). -/
def isPyWhitespace (c : Char) : Bool :=
  c = ' ' || c = '\t' || c = '\n' || c = '\r' || c = Char.ofNat 11 || c = Char.ofNat 12

/-- Python str.strip(): drop leading and trailing whitespace. -/
def pyStrip (s : String) : String :=
  String.mk (((s.data.dropWhile isPyWhitespace).reverse.dropWhile isPyWhitespace).reverse)

/-- Sentence-ending punctuation of the split pattern. -/
def isSentenceEnd (c : Char) : Bool := c = '.' || c = '!' || c = '?'

/-- The split point of the regular expression: a space whose preceding
character (the head of the reversed accumulator) is sentence-ending
punctuation. -/
def splitHere (c : Char) (acc : List Char) : Bool :=
  c = ' ' && (match acc with | p :: _ => isSentenceEnd p | [] => false)

/-- Character-level model of re.split on the pattern matching one or more
spaces preceded by a sentence-ending punctuation mark: emit the piece read so
far at a split point, then consume the rest of the space run (the Boolean
records that a space run is being consumed), and continue. -/
def splitSentencesAux : Bool → List Char → List Char → List (List Char)
  | _, [], acc => [acc.reverse]
  | skip, c :: rest, acc =>
    if skip && c == ' ' then splitSentencesAux true rest acc
    else if splitHere c acc then acc.reverse :: splitSentencesAux true rest []
    else splitSentencesAux false rest (c :: acc)

/-- The sentence split used by format_transcription_entry. -/
def pySplitSentences (s : String) : List String :=
  (splitSentencesAux false s.data []).map String.mk

/-- format_transcription_entry from the source, with the timestamp passed in
explicitly: strip the transcript, split into sentences, keep the bullets of
the nonempty stripped sentences, wrap with the timestamp header. -/
def format_transcription_entry (now : String) (transcription : String) : String :=
  "---\n🕒 " ++ now ++ "\n\n" ++
    String.intercalate "\n"
      (((pySplitSentences (pyStrip transcription)).filter
          (fun s => !(pyStrip s == ""))).map (fun s => "• " ++ pyStrip s)) ++ "\n"

/-- Modelled from the spec for comparison: a timestamp header line followed by
one bullet per delimited sentence, every bullet prefixed with the identical
marker, empty sentences dropped. -/
def specFormattedEntry (now : String) (transcription : String) : String :=
  "---\n🕒 " ++ now ++ "\n\n" ++
    String.intercalate "\n"
      ((((pySplitSentences (pyStrip transcription)).map pyStrip).filter
          (fun s => !(s == ""))).map (fun s => "• " ++ s)) ++ "\n"

/-- The whitelist_only decorator: reject and stop when the user id is not on
the allow-list, otherwise run the wrapped handler body. -/
def whitelistOnly {α : Type} (body : Nat → α → World → Env → HOut) :
    Nat → α → World → Env → HOut :=
  fun userId a w env =>
    if userId ∈ WHITELIST then body userId a w env
    else ⟨w, [Effect.reply rejectionMsg], none⟩

/-- The welcome message of the start handler. -/
def welcomeMessage (docLink : String) : String :=
  "👋 Welcome to MindShotBot!\n\n" ++
  "Here\x27s how to use me:\n" ++
  "1. Send me a voice message\n" ++
  "2. Reply to it with /cursor\n" ++
  "3. I\x27ll transcribe it, format it, and save it to your doc!\n\n" ++
  "Commands:\n" ++
  "/add_editor <email> - Add an editor to the document\n" ++
  "/remove_editor - Show list of editors to remove\n" ++
  "/list_editors - Show all current editors\n\n" ++
  "📝 Your document:\n" ++ docLink ++ "\n\n" ++
  "Let\x27s try it - send me a voice message!"

/-- Body of the start handler. -/
def startBody (userId : Nat) (username : Option String) (w : World) (env : Env) : HOut :=
  match get_or_create_user_doc userId username w env with
  | (Except.error e, w1, effs) => ⟨w1, effs, some e⟩
  | (Except.ok docId, w1, effs) =>
    ⟨w1, effs ++ [Effect.reply (welcomeMessage (get_doc_link docId))], none⟩

/-- The start handler (whitelist-wrapped). -/
def start : Nat → Option String → World → Env → HOut := whitelistOnly startBody

/-- The help handler: whitelist-wrapped call of the wrapped start handler. -/
def help_command : Nat → Option String → World → Env → HOut :=
  whitelistOnly (fun userId username w env => start userId username w env)

/-- Body of the add_editor handler; the input pairs the username with the
command arguments. -/
def addEditorBody (userId : Nat) (p : Option String × List String) (w : World) (env : Env) :
    HOut :=
  match get_or_create_user_doc userId p.1 w env with
  | (Except.error e, w1, effs) => ⟨w1, effs, some e⟩
  | (Except.ok docId, w1, effs) =>
    match p.2 with
    | [] => ⟨w1, effs ++ [Effect.reply "Usage: /add_editor <email>"], none⟩
    | email :: _ =>
      match env.permCreate docId email with
      | Except.ok _ =>
        ⟨w1, effs ++ [Effect.permCreateCall docId email "writer" true,
           Effect.reply ("✅ Successfully added " ++ email ++
             " as an editor to your document!")], none⟩
      | Except.error e =>
        ⟨w1, effs ++ [Effect.permCreateCall docId email "writer" true,
           Effect.reply ("❌ Failed to add editor: " ++ e)], none⟩

/-- The add_editor handler (whitelist-wrapped). -/
def add_editor : Nat → Option String × List String → World → Env → HOut :=
  whitelistOnly addEditorBody

/-- Body of the list_editors handler. -/
def listEditorsBody (userId : Nat) (username : Option String) (w : World) (env : Env) : HOut :=
  match get_or_create_user_doc userId username w env with
  | (Except.error e, w1, effs) => ⟨w1, effs, some e⟩
  | (Except.ok docId, w1, effs) =>
    match env.permList docId with
    | Except.error e =>
      ⟨w1, effs ++ [Effect.permListCall docId,
         Effect.reply ("❌ Failed to list editors: " ++ e)], none⟩
    | Except.ok perms =>
      match (perms.filter (fun p => p.role == "writer")).map Permission.emailAddress with
      | [] =>
        ⟨w1, effs ++ [Effect.permListCall docId, Effect.reply "No editors found."], none⟩
      | e0 :: es =>
        ⟨w1, effs ++ [Effect.permListCall docId,
           Effect.reply ("📝 Current editors:\n" ++
             String.intercalate "\n" ((e0 :: es).map (fun e => "• " ++ e)) ++
             "\n\nUse /remove_editor to see numbered list for removal.")], none⟩

/-- The list_editors handler (whitelist-wrapped). -/
def list_editors : Nat → Option String → World → Env → HOut :=
  whitelistOnly listEditorsBody

/-- Body of the remove_editor handler: lists writer-role editors with numbers;
the deletion call in the source is commented out and never made. -/
def removeEditorBody (userId : Nat) (username : Option String) (w : World) (env : Env) : HOut :=
  match get_or_create_user_doc userId username w env with
  | (Except.error e, w1, effs) => ⟨w1, effs, some e⟩
  | (Except.ok docId, w1, effs) =>
    match env.permList docId with
    | Except.error e =>
      ⟨w1, effs ++ [Effect.permListCall docId,
         Effect.reply ("❌ Failed to remove editor: " ++ e)], none⟩
    | Except.ok perms =>
      match (perms.filter (fun p => p.role == "writer")).map
          (fun p => (p.permId, p.emailAddress)) with
      | [] =>
        ⟨w1, effs ++ [Effect.permListCall docId, Effect.reply "No editors to remove."], none⟩
      | ed :: eds =>
        ⟨w1, effs ++ [Effect.permListCall docId,
           Effect.reply ("Send the number of the editor to remove:\n" ++
             String.intercalate "\n"
               (((ed :: eds).enum).map (fun ie => toString (ie.1 + 1) ++ ". " ++ ie.2.2)))],
         none⟩

/-- The remove_editor handler (whitelist-wrapped). -/
def remove_editor : Nat → Option String → World → Env → HOut :=
  whitelistOnly removeEditorBody

/-- Body of the voice-message handler. -/
def voiceMessageBody (userId : Nat) (username : Option String) (w : World) (env : Env) : HOut :=
  match get_or_create_user_doc userId username w env with
  | (Except.error e, w1, effs) => ⟨w1, effs, some e⟩
  | (Except.ok _, w1, effs) =>
    ⟨w1, effs ++
       [Effect.reply "I received your voice message! Reply to it with /cursor to process it."],
     none⟩

/-- The voice-message handler (whitelist-wrapped). -/
def voice_message : Nat → Option String → World → Env → HOut :=
  whitelistOnly voiceMessageBody

/-- The per-user temporary audio file path used by the cursor handler. -/
def tempFilePath (userId : Nat) : String := "voice_" ++ toString userId ++ ".ogg"

/-- The entry the cursor handler appends on success: separator line, clock
timestamp line, blank line, the model summary, final newline. -/
def cursorEntry (now summary : String) : String :=
  "---\n🕒 " ++ now ++ "\n\n" ++ summary ++ "\n"

/-- Body of the cursor handler.  The input pairs the username with whether the
command message replies to a voice message.  Faithful to the source control
flow: the download and temp-file write happen before the try block, so a
download failure escapes uncaught; transcription, summarization and append run
inside try with the error reply in except and the file removal in finally. -/
def cursorBody (userId : Nat) (p : Option String × Bool) (w : World) (env : Env) : HOut :=
  match get_or_create_user_doc userId p.1 w env with
  | (Except.error e, w1, effs) => ⟨w1, effs, some e⟩
  | (Except.ok docId, w1, effs) =>
    if p.2 then
      match env.download with
      | Except.error e => ⟨w1, effs ++ [Effect.downloadCall], some e⟩
      | Except.ok _ =>
        match env.transcribe (tempFilePath userId) with
        | Except.error e =>
          ⟨w1, effs ++ [Effect.downloadCall, Effect.writeFile (tempFilePath userId),
             Effect.transcribeCall (tempFilePath userId),
             Effect.reply ("❌ Error transcribing or saving: " ++ e),
             Effect.removeFile (tempFilePath userId)], none⟩
        | Except.ok transcription =>
          match env.summarize transcription with
          | Except.error e =>
            ⟨w1, effs ++ [Effect.downloadCall, Effect.writeFile (tempFilePath userId),
               Effect.transcribeCall (tempFilePath userId),
               Effect.summarizeCall (summarizePrompt transcription),
               Effect.reply ("❌ Error transcribing or saving: " ++ e),
               Effect.removeFile (tempFilePath userId)], none⟩
          | Except.ok summary =>
            match append_text_to_doc docId (cursorEntry env.now summary) w1 env with
            | (Except.error e, w2, appEffs) =>
              ⟨w2, effs ++ [Effect.downloadCall, Effect.writeFile (tempFilePath userId),
                 Effect.transcribeCall (tempFilePath userId),
                 Effect.summarizeCall (summarizePrompt transcription)] ++ appEffs ++
                 [Effect.reply ("❌ Error transcribing or saving: " ++ e),
                  Effect.removeFile (tempFilePath userId)], none⟩
            | (Except.ok _, w2, appEffs) =>
              ⟨w2, effs ++ [Effect.downloadCall, Effect.writeFile (tempFilePath userId),
                 Effect.transcribeCall (tempFilePath userId),
                 Effect.summarizeCall (summarizePrompt transcription)] ++ appEffs ++
                 [Effect.reply ("✅ Voice note processed!\n📝 View your notes: " ++
                    get_doc_link docId),
                  Effect.removeFile (tempFilePath userId)], none⟩
    else
      ⟨w1, effs ++ [Effect.reply "❌ Please reply to a voice message with /cursor"], none⟩

/-- The cursor handler (whitelist-wrapped). -/
def cursor : Nat → Option String × Bool → World → Env → HOut :=
  whitelistOnly cursorBody

/-- The fallback echo handler: registered without the whitelist decorator, it
replies with the help hint for every sender. -/
def echo (userId : Nat) (w : World) (env : Env) : HOut :=
  ⟨w, [Effect.reply "I\x27m here to help! Use /start to see instructions."], none⟩

/-- Recognizer for document-create effects. -/
def isCreateDocCall : Effect → Bool
  | Effect.createDocCall _ => true
  | _ => false

/-- Recognizer for permission-create effects. -/
def isPermCreateCall : Effect → Bool
  | Effect.permCreateCall _ _ _ _ => true
  | _ => false

/-- Recognizer for permission-delete effects. -/
def isPermDeleteCall : Effect → Bool
  | Effect.permDeleteCall _ _ => true
  | _ => false

/-- Recognizer for user replies. -/
def isReplyEffect : Effect → Bool
  | Effect.reply _ => true
  | _ => false

/-- The first line of a string, as a character list. -/
def firstLine (s : String) : List Char :=
  s.data.takeWhile (fun c => c != '\n')

/-- Spec predicate for the registry invariants, for a given pre-state and one
tracked entry: the entry survives, keys stay unique, and a changed registry is
persisted within the handler effects. -/
def RegistryOk (u d : String) (w : World) (out : HOut) : Prop :=
  out.world.docs.lookup u = some d ∧
  ((w.docs.map Prod.fst).Nodup → (out.world.docs.map Prod.fst).Nodup) ∧
  (out.world.docs ≠ w.docs → Effect.saveUserDocs out.world.docs ∈ out.effects)

/-- Structural fact about a handler run: either the registry is untouched, or
it is exactly the registry produced by get_or_create_user_doc and the effects
of that call all appear in the handler effects. -/
def ShapeVia (userId : Nat) (un : Option String) (w : World) (env : Env) (out : HOut) : Prop :=
  out.world.docs = w.docs ∨
  (out.world.docs = (get_or_create_user_doc userId un w env).2.1.docs ∧
   ∀ e ∈ (get_or_create_user_doc userId un w env).2.2, e ∈ out.effects)

/-- A concrete world with one registered user for witnesses. -/
def w0 : World := ⟨[("8079951399", "docA")], [("docA", "")]⟩

/-- The empty world. -/
def wEmpty : World := ⟨[], []⟩

/-- A concrete all-success environment for witnesses. -/
def envOk : Env where
  now := "2025-01-01 12:00"
  createDoc := fun _ => Except.ok "docA"
  permCreate := fun _ _ => Except.ok ()
  permList := fun _ => Except.ok []
  batchUpdate := fun _ _ => Except.ok ()
  download := Except.ok ()
  transcribe := fun _ => Except.ok "Buy milk. Call mom."
  summarize := fun _ => Except.ok ("• Buy milk\n• Call mom")

/-- Environment whose audio download fails. -/
def envDownFail : Env := { envOk with download := Except.error "network down" }

/-- Environment whose transcription call fails. -/
def envTransFail : Env := { envOk with transcribe := fun _ => Except.error "whisper 500" }

/-- Environment whose permission-list call fails. -/
def envPermFail : Env := { envOk with permList := fun _ => Except.error "boom" }

/-- A mixed-role permission list with one writer among other roles. -/
def permsMixed : List Permission :=
  [⟨"p1", "a@b.c", "writer"⟩, ⟨"p2", "x@y.z", "reader"⟩, ⟨"p3", "o@o.o", "owner"⟩]

/-- Environment with a mixed-role permission list. -/
def envPerm : Env := { envOk with permList := fun _ => Except.ok permsMixed }

/-! ### Helper lemmas about association lists -/

theorem lookup_ne_none_of_mem_keys {l : List (String × String)} {u : String}
    (h : u ∈ l.map Prod.fst) : l.lookup u ≠ none := by
  induction l with
  | nil => simp at h
  | cons p rest ih =>
    rcases p with ⟨k, v⟩
    by_cases hk : u = k
    · subst hk
      simp [List.lookup_cons]
    · simp only [List.map_cons, List.mem_cons] at h
      rcases h with h | h

      · exact absurd h hk
      · simp [List.lookup_cons, beq_false_of_ne hk, ih h]

theorem lookup_cons_of_orig {uid docId u d : String} {l : List (String × String)}
    (hnone : l.lookup uid = none) (h : l.lookup u = some d) :
    ((uid, docId) :: l).lookup u = some d := by
  have hne : u ≠ uid := by
    rintro rfl
    rw [hnone] at h
    exact Option.noConfusion h
  simp [List.lookup_cons, beq_false_of_ne hne, h]

theorem nodup_keys_cons {uid docId : String} {l : List (String × String)}
    (hnone : l.lookup uid = none) (h : (l.map Prod.fst).Nodup) :
    ((((uid, docId) :: l)).map Prod.fst).Nodup := by
  refine List.nodup_cons.mpr ⟨fun hmem => ?_, h⟩
  exact lookup_ne_none_of_mem_keys hmem hnone

theorem lookup_applyInsertText {contents : List (String × String)} {d body : String}
    (t : String) (h : contents.lookup d = some body) :
    (applyInsertText contents d t).lookup d = some (t ++ body) := by
  induction contents with
  | nil => simp [List.lookup] at h
  | cons p rest ih =>
    rcases p with ⟨k, v⟩
    by_cases hk : k = d
    · subst hk
      simp only [List.lookup_cons, beq_self_eq_true] at h
      cases h
      simp [applyInsertText, List.lookup_cons]
    · have hne : d ≠ k := Ne.symm hk
      simp only [List.lookup_cons, beq_false_of_ne hne] at h
      have := ih h
      simp only [applyInsertText, List.map_cons, if_neg hk] at this ⊢
      simp [List.lookup_cons, beq_false_of_ne hne, this]

/-! ### C8: append_text_to_doc issues exactly one batch update inserting at
index 1 with a trailing blank line -/

/-- C8: for every document id and text, append_text_to_doc issues exactly one
batch-update call, whose single request inserts the text followed by a blank
line at the fixed anchor index 1, unconditionally (no conflict detection);
this holds whether the provider call succeeds or fails. -/
theorem c8_append_single_batch_insert (docId text : String) (w : World) (env : Env) :
    (append_text_to_doc docId text w env).2.2 =
      [Effect.batchUpdateCall docId [⟨1, text ++ "\n\n"⟩]] := by
  cases h : env.batchUpdate docId (text ++ "\n\n") <;> simp [append_text_to_doc, h]

/-! ### C10: the fallback echo handler ignores the allow-list -/

/-- C10: for every sender, whitelisted or not, the fallback echo handler
replies with the help-hint message, leaves the world unchanged, and this help
hint is not the rejection reply. -/
theorem c10_echo_unconditional (userId : Nat) (w : World) (env : Env) :
    echo userId w env =
      ⟨w, [Effect.reply "I\x27m here to help! Use /start to see instructions."], none⟩ ∧
    "I\x27m here to help! Use /start to see instructions." ≠ rejectionMsg :=
  ⟨rfl, by decide⟩

/-! ### C1: the whitelist decorator rejects unauthorized users before any
side effect -/

/-- C1: for every user id not on the allow-list, each of the seven wrapped
command handlers sends exactly the rejection reply, leaves the world
(registry and document contents) unchanged, performs no provider call, and
raises nothing: the wrapped handler body is never entered. -/
theorem c1_unauthorized_rejected (userId : Nat) (un : Option String) (args : List String)
    (rv : Bool) (w : World) (env : Env) (h : userId ∉ WHITELIST) :
    start userId un w env = ⟨w, [Effect.reply rejectionMsg], none⟩ ∧
    help_command userId un w env = ⟨w, [Effect.reply rejectionMsg], none⟩ ∧
    add_editor userId (un, args) w env = ⟨w, [Effect.reply rejectionMsg], none⟩ ∧
    list_editors userId un w env = ⟨w, [Effect.reply rejectionMsg], none⟩ ∧
    remove_editor userId un w env = ⟨w, [Effect.reply rejectionMsg], none⟩ ∧
    cursor userId (un, rv) w env = ⟨w, [Effect.reply rejectionMsg], none⟩ ∧
    voice_message userId un w env = ⟨w, [Effect.reply rejectionMsg], none⟩ := by
  refine ⟨?_, ?_, ?_, ?_, ?_, ?_, ?_⟩ <;>
    simp [start, help_command, add_editor, list_editors, remove_editor, cursor,
      voice_message, whitelistOnly, h]

/-- Witness for C1 at the concrete unauthorized user id 0. -/
theorem c1_unauthorized_rejected_witness :
    (0 : Nat) ∉ WHITELIST ∧
    (start 0 none wEmpty envOk = ⟨wEmpty, [Effect.reply rejectionMsg], none⟩ ∧
     help_command 0 none wEmpty envOk = ⟨wEmpty, [Effect.reply rejectionMsg], none⟩ ∧
     add_editor 0 (none, []) wEmpty envOk = ⟨wEmpty, [Effect.reply rejectionMsg], none⟩ ∧
     list_editors 0 none wEmpty envOk = ⟨wEmpty, [Effect.reply rejectionMsg], none⟩ ∧
     remove_editor 0 none wEmpty envOk = ⟨wEmpty, [Effect.reply rejectionMsg], none⟩ ∧
     cursor 0 (none, false) wEmpty envOk = ⟨wEmpty, [Effect.reply rejectionMsg], none⟩ ∧
     voice_message 0 none wEmpty envOk = ⟨wEmpty, [Effect.reply rejectionMsg], none⟩) :=
  ⟨by decide, c1_unauthorized_rejected 0 none [] false wEmpty envOk (by decide)⟩

/-! ### C2: get_or_create_user_doc is idempotent under sequential calls -/

/-- C2: for a user with no stored mapping whose create call succeeds, calling
get_or_create_user_doc twice in sequence returns the same document identifier
both times, issues exactly one document-create call across the two calls, and
the second call returns the stored mapping with no effects at all. -/
theorem c2_get_or_create_idempotent (userId : Nat) (un : Option String) (w : World)
    (env : Env) (dId : String)
    (hnew : w.docs.lookup (toString userId) = none)
    (hok : env.createDoc (docTitle userId un) = Except.ok dId) :
    (get_or_create_user_doc userId un w env).1 = Except.ok dId ∧
    (get_or_create_user_doc userId un
        (get_or_create_user_doc userId un w env).2.1 env) =
      (Except.ok dId, (get_or_create_user_doc userId un w env).2.1, []) ∧
    ((get_or_create_user_doc userId un w env).2.2 ++
        (get_or_create_user_doc userId un
          (get_or_create_user_doc userId un w env).2.1 env).2.2).filter isCreateDocCall =
      [Effect.createDocCall (docTitle userId un)] := by
  have h1 : get_or_create_user_doc userId un w env =
      (Except.ok dId,
       ⟨(toString userId, dId) :: w.docs,
        if (w.contents.lookup dId).isSome then w.contents else (dId, "") :: w.contents⟩,
       [Effect.createDocCall (docTitle userId un),
        Effect.saveUserDocs ((toString userId, dId) :: w.docs)]) := by
    simp [get_or_create_user_doc, hnew, hok]
  have h2 : get_or_create_user_doc userId un
      (get_or_create_user_doc userId un w env).2.1 env =
      (Except.ok dId, (get_or_create_user_doc userId un w env).2.1, []) := by
    rw [h1]
    simp [get_or_create_user_doc, List.lookup_cons]
  refine ⟨by rw [h1], h2, ?_⟩
  rw [h1] at h2 ⊢
  rw [h2]
  simp [isCreateDocCall]

/-- Witness for C2 at a concrete fresh user in the empty world. -/
theorem c2_get_or_create_idempotent_witness :
    (get_or_create_user_doc 5 none wEmpty envOk).1 = Except.ok "docA" ∧
    (get_or_create_user_doc 5 none
        (get_or_create_user_doc 5 none wEmpty envOk).2.1 envOk) =
      (Except.ok "docA", (get_or_create_user_doc 5 none wEmpty envOk).2.1, []) ∧
    ((get_or_create_user_doc 5 none wEmpty envOk).2.2 ++
        (get_or_create_user_doc 5 none
          (get_or_create_user_doc 5 none wEmpty envOk).2.1 envOk).2.2).filter isCreateDocCall =
      [Effect.createDocCall (docTitle 5 none)] :=
  c2_get_or_create_idempotent 5 none wEmpty envOk "docA" rfl rfl

/-! ### C4: format_transcription_entry formatting -/

theorem bullet_map_filter (l : List String) :
    (l.filter (fun s => !(pyStrip s == ""))).map (fun s => "• " ++ pyStrip s) =
      ((l.map pyStrip).filter (fun s => !(s == ""))).map (fun s => "• " ++ s) := by
  induction l with
  | nil => rfl
  | cons a t ih =>
    by_cases h : pyStrip a = ""
    · simp [List.filter_cons, List.map_cons, h, ih]
    · simp [List.filter_cons, List.map_cons, h, ih]

/-- C4: for every transcript and timestamp, the formatted entry equals the
spec-side shape: the timestamp header followed by exactly one bullet per
delimited sentence (split at sentence-ending punctuation followed by spaces),
each bullet prefixed with the identical marker, and empty sentences dropped. -/
theorem c4_format_entry_bullets (now transcription : String) :
    format_transcription_entry now transcription = specFormattedEntry now transcription := by
  unfold format_transcription_entry specFormattedEntry
  rw [bullet_map_filter]

/-! ### C3: error handling of the cursor voice pipeline -/

/-- Counterexample to C3 as stated: when the audio download fails, the
exception escapes before the try block, so the run performs only the download
call, sends no reply at all (in particular no error reply naming the cause),
and removes no file. -/
theorem c3_download_failure_counterexample :
    cursor 8079951399 (some "adam", true) w0 envDownFail =
      ⟨w0, [Effect.downloadCall], some "network down"⟩ ∧
    (cursor 8079951399 (some "adam", true) w0 envDownFail).effects.filter isReplyEffect =
      [] := by
  refine ⟨by decide, by decide⟩

/-- C3 amended: for every failure raised by a provider call inside the try
block of the cursor pipeline (transcription, summarization, or document
append), the remaining steps are skipped, the temporary file voice_userId.ogg
is removed, the user receives an error reply naming the failure cause, and
the world (hence the document) is unchanged; on the success path the
temporary file is removed as the final effect.  A download failure instead
escapes as an uncaught exception with no reply (see the counterexample). -/
theorem c3_pipeline_failure_amended (userId : Nat) (un : Option String) (w : World)
    (env : Env) (d : String)
    (hwl : userId ∈ WHITELIST)
    (hmap : w.docs.lookup (toString userId) = some d)
    (hdl : env.download = Except.ok ()) :
    (∀ e, env.transcribe (tempFilePath userId) = Except.error e →
      cursor userId (un, true) w env =
        ⟨w, [Effect.downloadCall, Effect.writeFile (tempFilePath userId),
             Effect.transcribeCall (tempFilePath userId),
             Effect.reply ("❌ Error transcribing or saving: " ++ e),
             Effect.removeFile (tempFilePath userId)], none⟩) ∧
    (∀ tr e, env.transcribe (tempFilePath userId) = Except.ok tr →
        env.summarize tr = Except.error e →
      cursor userId (un, true) w env =
        ⟨w, [Effect.downloadCall, Effect.writeFile (tempFilePath userId),
             Effect.transcribeCall (tempFilePath userId),
             Effect.summarizeCall (summarizePrompt tr),
             Effect.reply ("❌ Error transcribing or saving: " ++ e),
             Effect.removeFile (tempFilePath userId)], none⟩) ∧
    (∀ tr su e, env.transcribe (tempFilePath userId) = Except.ok tr →
        env.summarize tr = Except.ok su →
        env.batchUpdate d (cursorEntry env.now su ++ "\n\n") = Except.error e →
      cursor userId (un, true) w env =
        ⟨w, [Effect.downloadCall, Effect.writeFile (tempFilePath userId),
             Effect.transcribeCall (tempFilePath userId),
             Effect.summarizeCall (summarizePrompt tr),
             Effect.batchUpdateCall d [⟨1, cursorEntry env.now su ++ "\n\n"⟩],
             Effect.reply ("❌ Error transcribing or saving: " ++ e),
             Effect.removeFile (tempFilePath userId)], none⟩) ∧
    (∀ tr su, env.transcribe (tempFilePath userId) = Except.ok tr →
        env.summarize tr = Except.ok su →
        env.batchUpdate d (cursorEntry env.now su ++ "\n\n") = Except.ok () →
      (cursor userId (un, true) w env).effects =
        [Effect.downloadCall, Effect.writeFile (tempFilePath userId),
         Effect.transcribeCall (tempFilePath userId),
         Effect.summarizeCall (summarizePrompt tr),
         Effect.batchUpdateCall d [⟨1, cursorEntry env.now su ++ "\n\n"⟩],
         Effect.reply ("✅ Voice note processed!\n📝 View your notes: " ++ get_doc_link d),
         Effect.removeFile (tempFilePath userId)] ∧
      (cursor userId (un, true) w env).world.docs = w.docs) := by
  have hg : get_or_create_user_doc userId un w env = (Except.ok d, w, []) := by
    simp [get_or_create_user_doc, hmap]
  refine ⟨?_, ?_, ?_, ?_⟩
  · intro e he
    simp [cursor, whitelistOnly, hwl, cursorBody, hg, hdl, he]
  · intro tr e htr hsu
    simp [cursor, whitelistOnly, hwl, cursorBody, hg, hdl, htr, hsu]
  · intro tr su e htr hsu hbu
    simp [cursor, whitelistOnly, hwl, cursorBody, hg, hdl, htr, hsu,
      append_text_to_doc, hbu]
  · intro tr su htr hsu hbu
    simp [cursor, whitelistOnly, hwl, cursorBody, hg, hdl, htr, hsu,
      append_text_to_doc, hbu]

/-- Witness for C3 amended: concrete transcription failure. -/
theorem c3_pipeline_failure_amended_witness :
    cursor 8079951399 (some "adam", true) w0 envTransFail =
      ⟨w0, [Effect.downloadCall, Effect.writeFile (tempFilePath 8079951399),
            Effect.transcribeCall (tempFilePath 8079951399),
            Effect.reply ("❌ Error transcribing or saving: " ++ "whisper 500"),
            Effect.removeFile (tempFilePath 8079951399)], none⟩ :=
  (c3_pipeline_failure_amended 8079951399 (some "adam") w0 envTransFail "docA"
    (by decide) rfl rfl).1 "whisper 500" rfl

/-! ### C5: the appended entry and the success reply -/

/-- Counterexample to C5 as stated: on a concrete successful run the appended
entry does not begin with the line dash dash dash space timestamp space dash
dash dash; its first line is the bare separator and the timestamp sits on the
second line behind a clock emoji. -/
theorem c5_entry_header_counterexample :
    (cursor 8079951399 (some "adam", true) w0 envOk).world.contents.lookup "docA" =
      some ("---\n🕒 2025-01-01 12:00\n\n• Buy milk\n• Call mom\n" ++ "\n\n" ++ "") ∧
    firstLine ("---\n🕒 2025-01-01 12:00\n\n• Buy milk\n• Call mom\n" ++ "\n\n" ++ "") =
      ['-', '-', '-'] ∧
    (['-', '-', '-'] : List Char) ≠ ("--- " ++ "2025-01-01 12:00" ++ " ---").data := by
  refine ⟨by decide, by decide, by decide⟩

/-- C5 amended: when the cursor pipeline succeeds, the entry appended to the
user's document begins with a separator line of three dashes followed by a
line holding the clock emoji and the timestamp, then a blank line and the
summary bullets; the document body gains exactly this entry (plus a blank
line) at its start, and the user receives the success reply containing the
document link, with the temporary file removed as the final effect. -/
theorem c5_success_append_amended (userId : Nat) (un : Option String) (w : World)
    (env : Env) (d body tr su : String)
    (hwl : userId ∈ WHITELIST)
    (hmap : w.docs.lookup (toString userId) = some d)
    (hcont : w.contents.lookup d = some body)
    (hdl : env.download = Except.ok ())
    (htr : env.transcribe (tempFilePath userId) = Except.ok tr)
    (hsu : env.summarize tr = Except.ok su)
    (hbu : env.batchUpdate d (cursorEntry env.now su ++ "\n\n") = Except.ok ()) :
    (cursor userId (un, true) w env).world.contents.lookup d =
      some (("---\n🕒 " ++ env.now ++ "\n\n" ++ su ++ "\n") ++ "\n\n" ++ body) ∧
    firstLine (cursorEntry env.now su) = ['-', '-', '-'] ∧
    Effect.reply ("✅ Voice note processed!\n📝 View your notes: " ++ get_doc_link d) ∈
      (cursor userId (un, true) w env).effects ∧
    (cursor userId (un, true) w env).effects.getLast? =
      some (Effect.removeFile (tempFilePath userId)) := by
  have hg : get_or_create_user_doc userId un w env = (Except.ok d, w, []) := by
    simp [get_or_create_user_doc, hmap]
  have hrun : cursor userId (un, true) w env =
      ⟨⟨w.docs, applyInsertText w.contents d (cursorEntry env.now su ++ "\n\n")⟩,
       [Effect.downloadCall, Effect.writeFile (tempFilePath userId),
        Effect.transcribeCall (tempFilePath userId),
        Effect.summarizeCall (summarizePrompt tr),
        Effect.batchUpdateCall d [⟨1, cursorEntry env.now su ++ "\n\n"⟩],
        Effect.reply ("✅ Voice note processed!\n📝 View your notes: " ++ get_doc_link d),
        Effect.removeFile (tempFilePath userId)], none⟩ := by
    simp [cursor, whitelistOnly, hwl, cursorBody, hg, hdl, htr, hsu,
      append_text_to_doc, hbu]
  rw [hrun]
  refine ⟨?_, ?_, ?_, ?_⟩
  · have := lookup_applyInsertText (cursorEntry env.now su ++ "\n\n") hcont
    rw [this]
    rfl
  · rfl
  · simp
  · rfl

/-- Witness for C5 amended at a concrete successful run. -/
theorem c5_success_append_amended_witness :
    (cursor 8079951399 (some "adam", true) w0 envOk).world.contents.lookup "docA" =
      some (("---\n🕒 " ++ "2025-01-01 12:00" ++ "\n\n" ++ "• Buy milk\n• Call mom" ++ "\n") ++
        "\n\n" ++ "") ∧
    firstLine (cursorEntry "2025-01-01 12:00" "• Buy milk\n• Call mom") = ['-', '-', '-'] ∧
    Effect.reply ("✅ Voice note processed!\n📝 View your notes: " ++ get_doc_link "docA") ∈
      (cursor 8079951399 (some "adam", true) w0 envOk).effects ∧
    (cursor 8079951399 (some "adam", true) w0 envOk).effects.getLast? =
      some (Effect.removeFile (tempFilePath 8079951399)) :=
  c5_success_append_amended 8079951399 (some "adam") w0 envOk "docA" ""
    "Buy milk. Call mom." "• Buy milk\n• Call mom" (by decide) rfl rfl rfl rfl rfl rfl

/-! ### C6: registry invariants -/

theorem get_or_create_registry (userId : Nat) (un : Option String) (w : World) (env : Env)
    (u d : String) (hu : w.docs.lookup u = some d) :
    (get_or_create_user_doc userId un w env).2.1.docs.lookup u = some d ∧
    ((w.docs.map Prod.fst).Nodup →
      ((get_or_create_user_doc userId un w env).2.1.docs.map Prod.fst).Nodup) ∧
    ((get_or_create_user_doc userId un w env).2.1.docs ≠ w.docs →
      Effect.saveUserDocs (get_or_create_user_doc userId un w env).2.1.docs ∈
        (get_or_create_user_doc userId un w env).2.2) := by
  cases hl : w.docs.lookup (toString userId) with
  | some d0 => simp [get_or_create_user_doc, hl, hu]
  | none =>
    cases hc : env.createDoc (docTitle userId un) with
    | error e => simp [get_or_create_user_doc, hl, hc, hu]
    | ok docId =>
      have h1 : (get_or_create_user_doc userId un w env).2.1.docs =
          (toString userId, docId) :: w.docs := by
        simp [get_or_create_user_doc, hl, hc]
      refine ⟨?_, ?_, ?_⟩
      · rw [h1]
        exact lookup_cons_of_orig hl hu
      · intro hnd
        rw [h1]
        exact nodup_keys_cons hl hnd
      · intro _
        rw [h1]
        simp [get_or_create_user_doc, hl, hc]

theorem registryOk_lift {u d : String} {w : World} {out : HOut}
    (userId : Nat) (un : Option String) (env : Env)
    (hu : w.docs.lookup u = some d)
    (hshape : ShapeVia userId un w env out) :
    RegistryOk u d w out := by
  rcases hshape with hsame | ⟨hdocs, heffs⟩
  · refine ⟨?_, ?_, ?_⟩
    · rw [hsame]
      exact hu
    · intro h
      rw [hsame]
      exact h
    · intro hne
      exact absurd hsame hne
  · obtain ⟨h1, h2, h3⟩ := get_or_create_registry userId un w env u d hu
    refine ⟨?_, ?_, ?_⟩
    · rw [hdocs]
      exact h1
    · intro h
      rw [hdocs]
      exact h2 h
    · intro hne
      rw [hdocs] at hne ⊢
      exact heffs _ (h3 hne)

theorem start_shape (userId : Nat) (un : Option String) (w : World) (env : Env) :
    ShapeVia userId un w env (start userId un w env) := by
  by_cases hwl : userId ∈ WHITELIST
  · right
    rcases hg : get_or_create_user_doc userId un w env with ⟨res, w1, effs⟩
    cases res with
    | error e =>
      refine ⟨by simp [start, whitelistOnly, hwl, startBody, hg], fun e2 he => ?_⟩
      simp [start, whitelistOnly, hwl, startBody, hg]
      exact he
    | ok docId =>
      refine ⟨by simp [start, whitelistOnly, hwl, startBody, hg], fun e2 he => ?_⟩
      simp [start, whitelistOnly, hwl, startBody, hg]
      exact Or.inl he
  · left
    simp [start, whitelistOnly, hwl]

theorem help_shape (userId : Nat) (un : Option String) (w : World) (env : Env) :
    ShapeVia userId un w env (help_command userId un w env) := by
  by_cases hwl : userId ∈ WHITELIST
  · have heq : help_command userId un w env = start userId un w env := by
      simp only [help_command, whitelistOnly, if_pos hwl]
    rw [heq]
    exact start_shape userId un w env
  · left
    simp [help_command, whitelistOnly, hwl]

theorem add_editor_shape (userId : Nat) (un : Option String) (args : List String)
    (w : World) (env : Env) :
    ShapeVia userId un w env (add_editor userId (un, args) w env) := by
  by_cases hwl : userId ∈ WHITELIST
  · right
    rcases hg : get_or_create_user_doc userId un w env with ⟨res, w1, effs⟩
    cases res with
    | error e =>
      refine ⟨by simp [add_editor, whitelistOnly, hwl, addEditorBody, hg], fun e2 he => ?_⟩
      simp [add_editor, whitelistOnly, hwl, addEditorBody, hg]
      exact he
    | ok docId =>
      cases args with
      | nil =>
        refine ⟨by simp [add_editor, whitelistOnly, hwl, addEditorBody, hg], fun e2 he => ?_⟩
        simp [add_editor, whitelistOnly, hwl, addEditorBody, hg]
        exact Or.inl he
      | cons email rest =>
        cases hpc : env.permCreate docId email with
        | ok u2 =>
          refine ⟨by simp [add_editor, whitelistOnly, hwl, addEditorBody, hg, hpc],
            fun e2 he => ?_⟩
          simp [add_editor, whitelistOnly, hwl, addEditorBody, hg, hpc]
          exact Or.inl he
        | error e =>
          refine ⟨by simp [add_editor, whitelistOnly, hwl, addEditorBody, hg, hpc],
            fun e2 he => ?_⟩
          simp [add_editor, whitelistOnly, hwl, addEditorBody, hg, hpc]
          exact Or.inl he
  · left
    simp [add_editor, whitelistOnly, hwl]

theorem list_editors_shape (userId : Nat) (un : Option String) (w : World) (env : Env) :
    ShapeVia userId un w env (list_editors userId un w env) := by
  by_cases hwl : userId ∈ WHITELIST
  · right
    rcases hg : get_or_create_user_doc userId un w env with ⟨res, w1, effs⟩
    cases res with
    | error e =>
      refine ⟨by simp [list_editors, whitelistOnly, hwl, listEditorsBody, hg], fun e2 he => ?_⟩
      simp [list_editors, whitelistOnly, hwl, listEditorsBody, hg]
      exact he
    | ok docId =>
      cases hpl : env.permList docId with
      | error e =>
        refine ⟨by simp [list_editors, whitelistOnly, hwl, listEditorsBody, hg, hpl],
          fun e2 he => ?_⟩
        simp [list_editors, whitelistOnly, hwl, listEditorsBody, hg, hpl]
        exact Or.inl he
      | ok perms =>
        cases hed : (perms.filter (fun p => p.role == "writer")).map Permission.emailAddress with
        | nil =>
          refine ⟨by simp [list_editors, whitelistOnly, hwl, listEditorsBody, hg, hpl, hed],
            fun e2 he => ?_⟩
          simp [list_editors, whitelistOnly, hwl, listEditorsBody, hg, hpl, hed]
          exact Or.inl he
        | cons e0 es =>
          refine ⟨by simp [list_editors, whitelistOnly, hwl, listEditorsBody, hg, hpl, hed],
            fun e2 he => ?_⟩
          simp [list_editors, whitelistOnly, hwl, listEditorsBody, hg, hpl, hed]
          exact Or.inl he
  · left
    simp [list_editors, whitelistOnly, hwl]

theorem remove_editor_shape (userId : Nat) (un : Option String) (w : World) (env : Env) :
    ShapeVia userId un w env (remove_editor userId un w env) := by
  by_cases hwl : userId ∈ WHITELIST
  · right
    rcases hg : get_or_create_user_doc userId un w env with ⟨res, w1, effs⟩
    cases res with
    | error e =>
      refine ⟨by simp [remove_editor, whitelistOnly, hwl, removeEditorBody, hg], fun e2 he => ?_⟩
      simp [remove_editor, whitelistOnly, hwl, removeEditorBody, hg]
      exact he
    | ok docId =>
      cases hpl : env.permList docId with
      | error e =>
        refine ⟨by simp [remove_editor, whitelistOnly, hwl, removeEditorBody, hg, hpl],
          fun e2 he => ?_⟩
        simp [remove_editor, whitelistOnly, hwl, removeEditorBody, hg, hpl]
        exact Or.inl he
      | ok perms =>
        cases hed : (perms.filter (fun p => p.role == "writer")).map
            (fun p => (p.permId, p.emailAddress)) with
        | nil =>
          refine ⟨by simp [remove_editor, whitelistOnly, hwl, removeEditorBody, hg, hpl, hed],
            fun e2 he => ?_⟩
          simp [remove_editor, whitelistOnly, hwl, removeEditorBody, hg, hpl, hed]
          exact Or.inl he
        | cons ed eds =>
          refine ⟨by simp [remove_editor, whitelistOnly, hwl, removeEditorBody, hg, hpl, hed],
            fun e2 he => ?_⟩
          simp [remove_editor, whitelistOnly, hwl, removeEditorBody, hg, hpl, hed]
          exact Or.inl he
  · left
    simp [remove_editor, whitelistOnly, hwl]

theorem voice_message_shape (userId : Nat) (un : Option String) (w : World) (env : Env) :
    ShapeVia userId un w env (voice_message userId un w env) := by
  by_cases hwl : userId ∈ WHITELIST
  · right
    rcases hg : get_or_create_user_doc userId un w env with ⟨res, w1, effs⟩
    cases res with
    | error e =>
      refine ⟨by simp [voice_message, whitelistOnly, hwl, voiceMessageBody, hg], fun e2 he => ?_⟩
      simp [voice_message, whitelistOnly, hwl, voiceMessageBody, hg]
      exact he
    | ok docId =>
      refine ⟨by simp [voice_message, whitelistOnly, hwl, voiceMessageBody, hg], fun e2 he => ?_⟩
      simp [voice_message, whitelistOnly, hwl, voiceMessageBody, hg]
      exact Or.inl he
  · left
    simp [voice_message, whitelistOnly, hwl]

theorem cursor_shape (userId : Nat) (un : Option String) (rv : Bool) (w : World) (env : Env) :
    ShapeVia userId un w env (cursor userId (un, rv) w env) := by
  by_cases hwl : userId ∈ WHITELIST
  · right
    rcases hg : get_or_create_user_doc userId un w env with ⟨res, w1, effs⟩
    cases res with
    | error e =>
      refine ⟨by simp [cursor, whitelistOnly, hwl, cursorBody, hg], fun e2 he => ?_⟩
      simp [cursor, whitelistOnly, hwl, cursorBody, hg]
      exact he
    | ok docId =>
      cases rv with
      | false =>
        refine ⟨by simp [cursor, whitelistOnly, hwl, cursorBody, hg], fun e2 he => ?_⟩
        simp [cursor, whitelistOnly, hwl, cursorBody, hg]
        exact Or.inl he
      | true =>
        cases hdl : env.download with
        | error e =>
          refine ⟨by simp [cursor, whitelistOnly, hwl, cursorBody, hg, hdl], fun e2 he => ?_⟩
          simp [cursor, whitelistOnly, hwl, cursorBody, hg, hdl]
          exact Or.inl he
        | ok u0 =>
          cases htr : env.transcribe (tempFilePath userId) with
          | error e =>
            refine ⟨by simp [cursor, whitelistOnly, hwl, cursorBody, hg, hdl, htr],
              fun e2 he => ?_⟩
            simp [cursor, whitelistOnly, hwl, cursorBody, hg, hdl, htr]
            exact Or.inl he
          | ok tr =>
            cases hsu : env.summarize tr with
            | error e =>
              refine ⟨by simp [cursor, whitelistOnly, hwl, cursorBody, hg, hdl, htr, hsu],
                fun e2 he => ?_⟩
              simp [cursor, whitelistOnly, hwl, cursorBody, hg, hdl, htr, hsu]
              exact Or.inl he
            | ok su =>
              cases hbu : env.batchUpdate docId (cursorEntry env.now su ++ "\n\n") with
              | error e =>
                refine ⟨by simp [cursor, whitelistOnly, hwl, cursorBody, hg, hdl, htr, hsu,
                    append_text_to_doc, hbu], fun e2 he => ?_⟩
                simp [cursor, whitelistOnly, hwl, cursorBody, hg, hdl, htr, hsu,
                  append_text_to_doc, hbu]
                exact Or.inl he
              | ok u1 =>
                refine ⟨by simp [cursor, whitelistOnly, hwl, cursorBody, hg, hdl, htr, hsu,
                    append_text_to_doc, hbu], fun e2 he => ?_⟩
                simp [cursor, whitelistOnly, hwl, cursorBody, hg, hdl, htr, hsu,
                  append_text_to_doc, hbu]
                exact Or.inl he
  · left
    simp [cursor, whitelistOnly, hwl]

/-- C6: every handler preserves existing registry entries (a user once mapped
stays mapped to the same document), keeps the user-to-document keys unique,
and any run that changes the registry also emits a synchronous save of the
whole new mapping among its effects. -/
theorem c6_registry_invariants (userId : Nat) (un : Option String) (args : List String)
    (rv : Bool) (w : World) (env : Env) (u d : String)
    (hu : w.docs.lookup u = some d) :
    RegistryOk u d w (start userId un w env) ∧
    RegistryOk u d w (help_command userId un w env) ∧
    RegistryOk u d w (add_editor userId (un, args) w env) ∧
    RegistryOk u d w (list_editors userId un w env) ∧
    RegistryOk u d w (remove_editor userId un w env) ∧
    RegistryOk u d w (cursor userId (un, rv) w env) ∧
    RegistryOk u d w (voice_message userId un w env) ∧
    RegistryOk u d w (echo userId w env) :=
  ⟨registryOk_lift userId un env hu (start_shape userId un w env),
   registryOk_lift userId un env hu (help_shape userId un w env),
   registryOk_lift userId un env hu (add_editor_shape userId un args w env),
   registryOk_lift userId un env hu (list_editors_shape userId un w env),
   registryOk_lift userId un env hu (remove_editor_shape userId un w env),
   registryOk_lift userId un env hu (cursor_shape userId un rv w env),
   registryOk_lift userId un env hu (voice_message_shape userId un w env),
   registryOk_lift userId un env hu (Or.inl rfl)⟩

/-- Witness for C6 at a concrete registered user and all-success environment. -/
theorem c6_registry_invariants_witness :
    RegistryOk "8079951399" "docA" w0 (start 8079951399 (some "adam") w0 envOk) ∧
    RegistryOk "8079951399" "docA" w0 (help_command 8079951399 (some "adam") w0 envOk) ∧
    RegistryOk "8079951399" "docA" w0
      (add_editor 8079951399 (some "adam", ["new@e.x"]) w0 envOk) ∧
    RegistryOk "8079951399" "docA" w0 (list_editors 8079951399 (some "adam") w0 envOk) ∧
    RegistryOk "8079951399" "docA" w0 (remove_editor 8079951399 (some "adam") w0 envOk) ∧
    RegistryOk "8079951399" "docA" w0 (cursor 8079951399 (some "adam", true) w0 envOk) ∧
    RegistryOk "8079951399" "docA" w0 (voice_message 8079951399 (some "adam") w0 envOk) ∧
    RegistryOk "8079951399" "docA" w0 (echo 8079951399 w0 envOk) :=
  c6_registry_invariants 8079951399 (some "adam") ["new@e.x"] true w0 envOk
    "8079951399" "docA" rfl

/-! ### C7: add_editor and list_editors behaviour -/

/-- C7: for a registered caller supplying an email argument, add_editor makes
exactly one permission-create call, with writer role, for that email on the
caller's document; on provider success it replies with the success message
and on provider error it surfaces the error verbatim in the reply.
list_editors replies with exactly the email addresses of the permission
entries whose role is writer, all other roles filtered out (or the no-editors
message when none remain). -/
theorem c7_editor_management (userId : Nat) (un : Option String) (w : World) (env : Env)
    (d email : String) (rest : List String)
    (hwl : userId ∈ WHITELIST)
    (hmap : w.docs.lookup (toString userId) = some d) :
    (add_editor userId (un, email :: rest) w env).effects.filter isPermCreateCall =
      [Effect.permCreateCall d email "writer" true] ∧
    (env.permCreate d email = Except.ok () →
      add_editor userId (un, email :: rest) w env =
        ⟨w, [Effect.permCreateCall d email "writer" true,
             Effect.reply ("✅ Successfully added " ++ email ++
               " as an editor to your document!")], none⟩) ∧
    (∀ e, env.permCreate d email = Except.error e →
      add_editor userId (un, email :: rest) w env =
        ⟨w, [Effect.permCreateCall d email "writer" true,
             Effect.reply ("❌ Failed to add editor: " ++ e)], none⟩) ∧
    (∀ perms, env.permList d = Except.ok perms →
      ((perms.filter (fun p => p.role == "writer")).map Permission.emailAddress = [] →
        list_editors userId un w env =
          ⟨w, [Effect.permListCall d, Effect.reply "No editors found."], none⟩) ∧
      (∀ e0 es,
        (perms.filter (fun p => p.role == "writer")).map Permission.emailAddress = e0 :: es →
        list_editors userId un w env =
          ⟨w, [Effect.permListCall d,
               Effect.reply ("📝 Current editors:\n" ++
                 String.intercalate "\n" ((e0 :: es).map (fun e => "• " ++ e)) ++
                 "\n\nUse /remove_editor to see numbered list for removal.")], none⟩)) := by
  have hg : get_or_create_user_doc userId un w env = (Except.ok d, w, []) := by
    simp [get_or_create_user_doc, hmap]
  refine ⟨?_, ?_, ?_, ?_⟩
  · cases hpc : env.permCreate d email with
    | ok u0 => simp [add_editor, whitelistOnly, hwl, addEditorBody, hg, hpc, isPermCreateCall]
    | error e => simp [add_editor, whitelistOnly, hwl, addEditorBody, hg, hpc, isPermCreateCall]
  · intro hpc
    simp [add_editor, whitelistOnly, hwl, addEditorBody, hg, hpc]
  · intro e hpc
    simp [add_editor, whitelistOnly, hwl, addEditorBody, hg, hpc]
  · intro perms hpl
    refine ⟨fun hed => ?_, fun e0 es hed => ?_⟩
    · simp [list_editors, whitelistOnly, hwl, listEditorsBody, hg, hpl, hed]
    · simp [list_editors, whitelistOnly, hwl, listEditorsBody, hg, hpl, hed]

/-- Witness for C7 at a concrete registered caller, a successful
permission-create, and a mixed-role permission list in which exactly one
entry has writer role. -/
theorem c7_editor_management_witness :
    add_editor 8079951399 (some "adam", ["new@e.x"]) w0 envPerm =
      ⟨w0, [Effect.permCreateCall "docA" "new@e.x" "writer" true,
            Effect.reply ("✅ Successfully added " ++ "new@e.x" ++
              " as an editor to your document!")], none⟩ ∧
    list_editors 8079951399 (some "adam") w0 envPerm =
      ⟨w0, [Effect.permListCall "docA",
            Effect.reply ("📝 Current editors:\n" ++
              String.intercalate "\n" (["a@b.c"].map (fun e => "• " ++ e)) ++
              "\n\nUse /remove_editor to see numbered list for removal.")], none⟩ :=
  ⟨(c7_editor_management 8079951399 (some "adam") w0 envPerm "docA" "new@e.x" []
      (by decide) rfl).2.1 rfl,
   ((c7_editor_management 8079951399 (some "adam") w0 envPerm "docA" "new@e.x" []
      (by decide) rfl).2.2.2 permsMixed rfl).2 "a@b.c" [] rfl⟩

/-! ### C9: remove_editor never deletes a permission -/

theorem get_or_create_no_perm_effects (userId : Nat) (un : Option String) (w : World)
    (env : Env) :
    (get_or_create_user_doc userId un w env).2.2.filter isPermDeleteCall = [] ∧
    (get_or_create_user_doc userId un w env).2.2.filter isPermCreateCall = [] := by
  cases hl : w.docs.lookup (toString userId) with
  | some d0 => simp [get_or_create_user_doc, hl]
  | none =>
    cases hc : env.createDoc (docTitle userId un) with
    | error e =>
      simp [get_or_create_user_doc, hl, hc, isPermDeleteCall, isPermCreateCall]
    | ok docId =>
      simp [get_or_create_user_doc, hl, hc, isPermDeleteCall, isPermCreateCall]

theorem remove_editor_no_perm_mutation (userId : Nat) (un : Option String) (w : World)
    (env : Env) :
    (remove_editor userId un w env).effects.filter isPermDeleteCall = [] ∧
    (remove_editor userId un w env).effects.filter isPermCreateCall = [] := by
  by_cases hwl : userId ∈ WHITELIST
  · rcases hg : get_or_create_user_doc userId un w env with ⟨res, w1, effs⟩
    have hfe : effs.filter isPermDeleteCall = [] ∧ effs.filter isPermCreateCall = [] := by
      have := get_or_create_no_perm_effects userId un w env
      rw [hg] at this
      exact this
    cases res with
    | error e =>
      simp [remove_editor, whitelistOnly, hwl, removeEditorBody, hg, List.filter_append,
        hfe.1, hfe.2]
    | ok docId =>
      cases hpl : env.permList docId with
      | error e =>
        simp [remove_editor, whitelistOnly, hwl, removeEditorBody, hg, hpl,
          List.filter_append, hfe.1, hfe.2, isPermDeleteCall, isPermCreateCall]
      | ok perms =>
        cases hed : (perms.filter (fun p => p.role == "writer")).map
            (fun p => (p.permId, p.emailAddress)) with
        | nil =>
          simp [remove_editor, whitelistOnly, hwl, removeEditorBody, hg, hpl, hed,
            List.filter_append, hfe.1, hfe.2, isPermDeleteCall, isPermCreateCall]
        | cons ed eds =>
          simp [remove_editor, whitelistOnly, hwl, removeEditorBody, hg, hpl, hed,
            List.filter_append, hfe.1, hfe.2, isPermDeleteCall, isPermCreateCall]
  · simp [remove_editor, whitelistOnly, hwl, isPermDeleteCall, isPermCreateCall]

/-- Counterexample to C9 as stated: when the permission-list provider call
fails, remove_editor replies with a provider-error message, which is neither
the no-editors message nor a numbered list (every numbered-list reply begins
with the fixed instruction line). -/
theorem c9_error_reply_counterexample :
    remove_editor 8079951399 (some "adam") w0 envPermFail =
      ⟨w0, [Effect.permListCall "docA",
            Effect.reply ("❌ Failed to remove editor: " ++ "boom")], none⟩ ∧
    ("❌ Failed to remove editor: " ++ "boom") ≠ "No editors to remove." ∧
    firstLine ("❌ Failed to remove editor: " ++ "boom") ≠
      firstLine ("Send the number of the editor to remove:" ++ "\n" ++ "1. a@b.c") := by
  refine ⟨by decide, by decide, by decide⟩

/-- C9 amended: remove_editor never issues a permission-delete call (nor any
permission-create call) on any invocation, leaving the document's permission
state unchanged; for a registered whitelisted caller it replies with a
numbered list of the writer-role editors, the no-editors message, or a
provider-error message when the permission list call fails. -/
theorem c9_remove_editor_amended (userId : Nat) (un : Option String) (w : World)
    (env : Env) (d : String)
    (hwl : userId ∈ WHITELIST)
    (hmap : w.docs.lookup (toString userId) = some d) :
    (∀ (uid2 : Nat) (un2 : Option String) (w2 : World) (env2 : Env),
      (remove_editor uid2 un2 w2 env2).effects.filter isPermDeleteCall = [] ∧
      (remove_editor uid2 un2 w2 env2).effects.filter isPermCreateCall = []) ∧
    (∀ e, env.permList d = Except.error e →
      remove_editor userId un w env =
        ⟨w, [Effect.permListCall d,
             Effect.reply ("❌ Failed to remove editor: " ++ e)], none⟩) ∧
    (∀ perms, env.permList d = Except.ok perms →
      ((perms.filter (fun p => p.role == "writer")).map
          (fun p => (p.permId, p.emailAddress)) = [] →
        remove_editor userId un w env =
          ⟨w, [Effect.permListCall d, Effect.reply "No editors to remove."], none⟩) ∧
      (∀ ed eds,
        (perms.filter (fun p => p.role == "writer")).map
          (fun p => (p.permId, p.emailAddress)) = ed :: eds →
        remove_editor userId un w env =
          ⟨w, [Effect.permListCall d,
               Effect.reply ("Send the number of the editor to remove:\n" ++
                 String.intercalate "\n"
                   (((ed :: eds).enum).map
                     (fun ie => toString (ie.1 + 1) ++ ". " ++ ie.2.2)))], none⟩)) := by
  have hg : get_or_create_user_doc userId un w env = (Except.ok d, w, []) := by
    simp [get_or_create_user_doc, hmap]
  refine ⟨remove_editor_no_perm_mutation, ?_, ?_⟩
  · intro e hpl
    simp [remove_editor, whitelistOnly, hwl, removeEditorBody, hg, hpl]
  · intro perms hpl
    refine ⟨fun hed => ?_, fun ed eds hed => ?_⟩
    · simp [remove_editor, whitelistOnly, hwl, removeEditorBody, hg, hpl, hed]
    · simp [remove_editor, whitelistOnly, hwl, removeEditorBody, hg, hpl, hed]

/-- Witness for C9 amended: the mixed-role permission list yields the
numbered list of its single writer, and no delete call is made. -/
theorem c9_remove_editor_amended_witness :
    (remove_editor 8079951399 (some "adam") w0 envPerm).effects.filter isPermDeleteCall =
      [] ∧
    remove_editor 8079951399 (some "adam") w0 envPerm =
      ⟨w0, [Effect.permListCall "docA",
            Effect.reply ("Send the number of the editor to remove:\n" ++
              String.intercalate "\n"
                (([("p1", "a@b.c")].enum).map
                  (fun ie => toString (ie.1 + 1) ++ ". " ++ ie.2.2)))], none⟩ :=
  ⟨((c9_remove_editor_amended 8079951399 (some "adam") w0 envPerm "docA"
      (by decide) rfl).1 8079951399 (some "adam") w0 envPerm).1,
   ((c9_remove_editor_amended 8079951399 (some "adam") w0 envPerm "docA"
      (by decide) rfl).2.2 permsMixed rfl).2 ("p1", "a@b.c") [] rfl⟩

end Mindshot
